import Mathlib

/-!
Verification of the CSS selector builder of `src/05-objects-tasks.js`.

The builder `CssSelector` accumulates the fragments of one compound CSS
selector (element, id, classes, attributes, pseudo-classes, pseudo-element),
optionally a combinator together with the already-stringified right-hand
selector, and renders everything with `stringify`.  Every field of the
JavaScript object is a string except `order`, an array of six numbers
initialised to 0 that records which fragment ranks have been appended.

JavaScript methods mutate `this` and may throw.  We model each method as a
state-passing function returning `Option JsError × CssSelector`: the first
component is the thrown error (if any) and the second component is the state
of the receiver after the call, including any mutation performed before the
throw.  Errors are identified by their message text, the only observable
the program gives them.
-/

namespace CoreJs

/-- The two errors thrown by the builder, identified by message. -/
inductive JsError where
  | duplicateFragment
  | orderViolation
deriving DecidableEq, Repr

/-- The exact message text of each error, transcribed from the source
(`throwException` at line 126 and `checkOrder` at line 139). -/
def errorMessage : JsError → String
  | JsError.duplicateFragment =>
      "Element, id and pseudo-element should not occur more then one time inside the selector"
  | JsError.orderViolation =>
      "Selector parts should be arranged in the following order: element, id, class, attribute, pseudo-class, pseudo-element"

/-- State of one `CssSelector` object: the string fields and the `order`
array (`Array(6).fill(0)` in the source), in declaration order. -/
structure CssSelector where
  elementValue : String
  idValue : String
  classes : String
  attrs : String
  pseudoClasses : String
  pseudoElementValue : String
  combinator : String
  supSelector : String
  order : List Nat
deriving DecidableEq, Repr

namespace CssSelector

/-- The state built by the constructor `new CssSelector()`. -/
def newSelector : CssSelector :=
  { elementValue := ""
    idValue := ""
    classes := ""
    attrs := ""
    pseudoClasses := ""
    pseudoElementValue := ""
    combinator := ""
    supSelector := ""
    order := List.replicate 6 0 }

/-- `Array.prototype.indexOf(1)`: index of the first occurrence of `1`,
`-1` when there is none. -/
def indexOfOne : List Nat → Int
  | [] => -1
  | x :: xs =>
      if x = 1 then 0
      else if indexOfOne xs = -1 then -1 else indexOfOne xs + 1

/-- `String.prototype.trim()`: strip whitespace from both ends. -/
def jsTrim (s : String) : String :=
  String.mk (((s.toList.dropWhile Char.isWhitespace).reverse.dropWhile
    Char.isWhitespace).reverse)

/-- `this.throwException`: always throws the duplicate-fragment message. -/
def throwException : Option JsError := some JsError.duplicateFragment

/-- `this.assertEmpty(value)`: throws via `throwException` when `value` is
not the empty string. -/
def assertEmpty (value : String) : Option JsError :=
  if value ≠ "" then throwException else none

/-- `this.checkOrder(value)`: reads `this.order.indexOf(1)`; throws the
order-violation error when that index exists and exceeds `value`, otherwise
sets `this.order[value] = 1`.  The throwing branch performs no mutation. -/
def checkOrder (s : CssSelector) (v : Nat) : Option JsError × CssSelector :=
  let first := indexOfOne s.order
  if first ≠ -1 ∧ first > (v : Int) then
    (some JsError.orderViolation, s)
  else
    (none, { s with order := s.order.set v 1 })

/-- `this.element(value)`: `assertEmpty(this.elementValue)`, then
`checkOrder(0)`, then `this.elementValue = value`. -/
def element (s : CssSelector) (value : String) : Option JsError × CssSelector :=
  match assertEmpty s.elementValue with
  | some e => (some e, s)
  | none =>
      match checkOrder s 0 with
      | (some e, s1) => (some e, s1)
      | (none, s1) => (none, { s1 with elementValue := value })

/-- `this.id(value)`: `assertEmpty(this.idValue)`, then `checkOrder(1)`,
then `this.idValue = '#' + value`. -/
def id (s : CssSelector) (value : String) : Option JsError × CssSelector :=
  match assertEmpty s.idValue with
  | some e => (some e, s)
  | none =>
      match checkOrder s 1 with
      | (some e, s1) => (some e, s1)
      | (none, s1) => (none, { s1 with idValue := "#" ++ value })

/-- `this.class(value)`: `checkOrder(2)`, then append `'.' + value` to
`this.classes`.  (`class` is a Lean keyword, hence the underscore.) -/
def class_ (s : CssSelector) (value : String) : Option JsError × CssSelector :=
  match checkOrder s 2 with
  | (some e, s1) => (some e, s1)
  | (none, s1) => (none, { s1 with classes := s1.classes ++ "." ++ value })

/-- `this.attr(value)`: `checkOrder(3)`, then append `'[' + value + ']'`
to `this.attrs`. -/
def attr (s : CssSelector) (value : String) : Option JsError × CssSelector :=
  match checkOrder s 3 with
  | (some e, s1) => (some e, s1)
  | (none, s1) => (none, { s1 with attrs := s1.attrs ++ "[" ++ value ++ "]" })

/-- `this.pseudoClass(value)`: `checkOrder(4)`, then append `':' + value`
to `this.pseudoClasses`. -/
def pseudoClass (s : CssSelector) (value : String) : Option JsError × CssSelector :=
  match checkOrder s 4 with
  | (some e, s1) => (some e, s1)
  | (none, s1) =>
      (none, { s1 with pseudoClasses := s1.pseudoClasses ++ ":" ++ value })

/-- `this.pseudoElement(value)`: `checkOrder(5)` FIRST, then
`assertEmpty(this.pseudoElementValue)`, then append `'::' + value` to
`this.pseudoElementValue`.  When `assertEmpty` throws, the mutation already
performed by `checkOrder` persists on the receiver. -/
def pseudoElement (s : CssSelector) (value : String) :
    Option JsError × CssSelector :=
  match checkOrder s 5 with
  | (some e, s1) => (some e, s1)
  | (none, s1) =>
      match assertEmpty s1.pseudoElementValue with
      | some e => (some e, s1)
      | none =>
          (none,
            { s1 with pseudoElementValue := s1.pseudoElementValue ++ "::" ++ value })

/-- `this.stringify()`: concatenate the six fragment fields and a trailing
space; when both `combinator` and `supSelector` are non-empty, append
`combinator + ' '` and then `supSelector`; finally trim.  The body only
reads fields of `this` into a local and never throws. -/
def stringify (s : CssSelector) : String :=
  let result := s.elementValue ++ s.idValue ++ s.classes ++ s.attrs ++
    s.pseudoClasses ++ s.pseudoElementValue ++ " "
  let result2 :=
    if s.combinator ≠ "" ∧ s.supSelector ≠ "" then
      result ++ (s.combinator ++ " ") ++ s.supSelector
    else result
  jsTrim result2

/-- Store a right-hand text and a combinator on the receiver, leaving every
other field unchanged (the two assignments of `combine`). -/
def combineStr (s : CssSelector) (supText : String) (comb : String) :
    CssSelector :=
  { s with supSelector := supText, combinator := comb }

/-- `this.combine(selector, combinator)`: `this.supSelector =
selector.stringify(); this.combinator = combinator; return this`.  The
argument `selector` is only read (its `stringify` is called); the receiver
is returned. -/
def combine (s : CssSelector) (selector : CssSelector) (comb : String) :
    CssSelector :=
  combineStr s (stringify selector) comb

/-- State-passing form of `stringify`: the method assigns no field of
`this`, so its translation returns the unchanged state next to the computed
string. -/
def stringifyCall (s : CssSelector) : String × CssSelector :=
  (stringify s, s)

end CssSelector

/- The facade object `cssSelectorBuilder`: each fragment entry constructs
`new CssSelector()` and delegates; `combine(selector1, combinator,
selector2)` is `selector1.combine(selector2, combinator)`. -/
namespace cssSelectorBuilder

def element (value : String) : Option JsError × CssSelector :=
  CssSelector.element CssSelector.newSelector value

def id (value : String) : Option JsError × CssSelector :=
  CssSelector.id CssSelector.newSelector value

def class_ (value : String) : Option JsError × CssSelector :=
  CssSelector.class_ CssSelector.newSelector value

def attr (value : String) : Option JsError × CssSelector :=
  CssSelector.attr CssSelector.newSelector value

def pseudoClass (value : String) : Option JsError × CssSelector :=
  CssSelector.pseudoClass CssSelector.newSelector value

def pseudoElement (value : String) : Option JsError × CssSelector :=
  CssSelector.pseudoElement CssSelector.newSelector value

def combine (selector1 : CssSelector) (comb : String)
    (selector2 : CssSelector) : CssSelector :=
  CssSelector.combine selector1 selector2 comb

end cssSelectorBuilder

namespace CssSelector

/-- The throwing condition of `checkOrder(v)`: `this.order.indexOf(1)`
exists and exceeds `v`, i.e. the lowest rank already appended is greater
than the rank being appended. -/
def orderBlocks (s : CssSelector) (v : Nat) : Prop :=
  indexOfOne s.order ≠ -1 ∧ indexOfOne s.order > (v : Int)

instance (s : CssSelector) (v : Nat) : Decidable (orderBlocks s v) := by
  unfold orderBlocks; infer_instance

theorem checkOrder_spec (s : CssSelector) (v : Nat) :
    checkOrder s v =
      if orderBlocks s v then (some JsError.orderViolation, s)
      else (none, { s with order := s.order.set v 1 }) := by
  unfold checkOrder orderBlocks
  rfl

theorem element_spec (s : CssSelector) (v : String) :
    element s v =
      if s.elementValue ≠ "" then (some JsError.duplicateFragment, s)
      else if orderBlocks s 0 then (some JsError.orderViolation, s)
      else (none, { s with elementValue := v, order := s.order.set 0 1 }) := by
  by_cases h : s.elementValue = "" <;>
    by_cases h2 : orderBlocks s 0 <;>
      simp [element, assertEmpty, throwException, checkOrder_spec, h, h2]

theorem id_spec (s : CssSelector) (v : String) :
    id s v =
      if s.idValue ≠ "" then (some JsError.duplicateFragment, s)
      else if orderBlocks s 1 then (some JsError.orderViolation, s)
      else (none, { s with idValue := "#" ++ v, order := s.order.set 1 1 }) := by
  by_cases h : s.idValue = "" <;>
    by_cases h2 : orderBlocks s 1 <;>
      simp [id, assertEmpty, throwException, checkOrder_spec, h, h2]

theorem class_spec (s : CssSelector) (v : String) :
    class_ s v =
      if orderBlocks s 2 then (some JsError.orderViolation, s)
      else (none, { s with classes := s.classes ++ "." ++ v,
                           order := s.order.set 2 1 }) := by
  by_cases h2 : orderBlocks s 2 <;> simp [class_, checkOrder_spec, h2]

theorem attr_spec (s : CssSelector) (v : String) :
    attr s v =
      if orderBlocks s 3 then (some JsError.orderViolation, s)
      else (none, { s with attrs := s.attrs ++ "[" ++ v ++ "]",
                           order := s.order.set 3 1 }) := by
  by_cases h2 : orderBlocks s 3 <;> simp [attr, checkOrder_spec, h2]

theorem pseudoClass_spec (s : CssSelector) (v : String) :
    pseudoClass s v =
      if orderBlocks s 4 then (some JsError.orderViolation, s)
      else (none, { s with pseudoClasses := s.pseudoClasses ++ ":" ++ v,
                           order := s.order.set 4 1 }) := by
  by_cases h2 : orderBlocks s 4 <;> simp [pseudoClass, checkOrder_spec, h2]

theorem pseudoElement_spec (s : CssSelector) (v : String) :
    pseudoElement s v =
      if orderBlocks s 5 then (some JsError.orderViolation, s)
      else if s.pseudoElementValue ≠ "" then
        (some JsError.duplicateFragment, { s with order := s.order.set 5 1 })
      else
        (none, { s with pseudoElementValue := s.pseudoElementValue ++ "::" ++ v,
                        order := s.order.set 5 1 }) := by
  by_cases h2 : orderBlocks s 5 <;>
    by_cases h : s.pseudoElementValue = "" <;>
      simp [pseudoElement, assertEmpty, throwException, checkOrder_spec, h, h2]

/-- `indexOf(1)` never reaches the length of the array. -/
theorem indexOfOne_lt_length (l : List Nat) :
    indexOfOne l < (l.length : Int) := by
  induction l with
  | nil => simp [indexOfOne]
  | cons x xs ih =>
      simp only [indexOfOne, List.length_cons]
      by_cases hx : x = 1
      · rw [if_pos hx]
        omega
      · rw [if_neg hx]
        by_cases hr : indexOfOne xs = -1
        · rw [if_pos hr]
          omega
        · rw [if_neg hr]
          omega

/-- If slot `n` of the array holds `1`, `indexOf(1)` is at most `n`. -/
theorem indexOfOne_le (l : List Nat) (n : Nat) (h : l[n]? = some 1) :
    indexOfOne l ≤ (n : Int) := by
  induction l generalizing n with
  | nil => simp at h
  | cons x xs ih =>
      simp only [indexOfOne]
      by_cases hx : x = 1
      · rw [if_pos hx]
        omega
      · rw [if_neg hx]
        cases n with
        | zero =>
            simp only [List.getElem?_cons_zero, Option.some.injEq] at h
            exact absurd h hx
        | succ m =>
            simp only [List.getElem?_cons_succ] at h
            have hm := ih m h
            by_cases hr : indexOfOne xs = -1
            · rw [if_pos hr]
              omega
            · rw [if_neg hr]
              omega

/-- States reachable from `new CssSelector()` by any sequence of fragment
and combine calls.  Each fragment constructor takes the second component of
the call, i.e. the state of the receiver after the call whether or not an
error was thrown, so failed calls are covered as well. -/
inductive Reachable : CssSelector → Prop where
  | init : Reachable newSelector
  | element (s : CssSelector) (v : String) :
      Reachable s → Reachable (element s v).2
  | id (s : CssSelector) (v : String) :
      Reachable s → Reachable (id s v).2
  | class_ (s : CssSelector) (v : String) :
      Reachable s → Reachable (class_ s v).2
  | attr (s : CssSelector) (v : String) :
      Reachable s → Reachable (attr s v).2
  | pseudoClass (s : CssSelector) (v : String) :
      Reachable s → Reachable (pseudoClass s v).2
  | pseudoElement (s : CssSelector) (v : String) :
      Reachable s → Reachable (pseudoElement s v).2
  | combine (s r : CssSelector) (c : String) :
      Reachable s → Reachable r → Reachable (combine s r c)

/-- Like `Reachable`, but every `combine` call uses a non-empty combinator
string and a right operand whose `stringify` is non-empty. -/
inductive StrictReachable : CssSelector → Prop where
  | init : StrictReachable newSelector
  | element (s : CssSelector) (v : String) :
      StrictReachable s → StrictReachable (element s v).2
  | id (s : CssSelector) (v : String) :
      StrictReachable s → StrictReachable (id s v).2
  | class_ (s : CssSelector) (v : String) :
      StrictReachable s → StrictReachable (class_ s v).2
  | attr (s : CssSelector) (v : String) :
      StrictReachable s → StrictReachable (attr s v).2
  | pseudoClass (s : CssSelector) (v : String) :
      StrictReachable s → StrictReachable (pseudoClass s v).2
  | pseudoElement (s : CssSelector) (v : String) :
      StrictReachable s → StrictReachable (pseudoElement s v).2
  | combine (s r : CssSelector) (c : String) :
      StrictReachable s → StrictReachable r → c ≠ "" → stringify r ≠ "" →
      StrictReachable (combine s r c)

/-- Structural invariant of reachable states: the `order` array keeps its
six slots, and a non-empty `elementValue`, `idValue` or
`pseudoElementValue` implies that the corresponding order slot was set. -/
def Inv (s : CssSelector) : Prop :=
  s.order.length = 6 ∧
  (s.elementValue ≠ "" → s.order[0]? = some 1) ∧
  (s.idValue ≠ "" → s.order[1]? = some 1) ∧
  (s.pseudoElementValue ≠ "" → s.order[5]? = some 1)

/-- Writing a value already present at an index leaves the list unchanged. -/
theorem set_getElem_self (l : List Nat) (i : Nat) (a : Nat)
    (h : l[i]? = some a) : l.set i a = l := by
  induction l generalizing i with
  | nil => simp at h
  | cons x xs ih =>
      cases i with
      | zero =>
          simp only [List.getElem?_cons_zero, Option.some.injEq] at h
          subst h
          rfl
      | succ m =>
          simp only [List.getElem?_cons_succ] at h
          show x :: xs.set m a = x :: xs
          rw [ih m h]

theorem reachable_inv (s : CssSelector) (h : Reachable s) : Inv s := by
  induction h with
  | init =>
      refine ⟨rfl, ?_, ?_, ?_⟩ <;> intro hx <;> exact absurd rfl hx
  | element s v hs ih =>
      obtain ⟨hlen, h0, h1, h5⟩ := ih
      rw [element_spec]
      split_ifs with hdup hord
      · exact ⟨hlen, h0, h1, h5⟩
      · exact ⟨hlen, h0, h1, h5⟩
      · refine ⟨?_, ?_, ?_, ?_⟩
        · show (s.order.set 0 1).length = 6
          simp [hlen]
        · intro _
          show (s.order.set 0 1)[0]? = some 1
          exact List.getElem?_set_eq_of_lt 1 (by omega)
        · intro hid
          show (s.order.set 0 1)[1]? = some 1
          rw [List.getElem?_set_ne (by omega)]
          exact h1 hid
        · intro hpe
          show (s.order.set 0 1)[5]? = some 1
          rw [List.getElem?_set_ne (by omega)]
          exact h5 hpe
  | id s v hs ih =>
      obtain ⟨hlen, h0, h1, h5⟩ := ih
      rw [id_spec]
      split_ifs with hdup hord
      · exact ⟨hlen, h0, h1, h5⟩
      · exact ⟨hlen, h0, h1, h5⟩
      · refine ⟨?_, ?_, ?_, ?_⟩
        · show (s.order.set 1 1).length = 6
          simp [hlen]
        · intro hel
          show (s.order.set 1 1)[0]? = some 1
          rw [List.getElem?_set_ne (by omega)]
          exact h0 hel
        · intro _
          show (s.order.set 1 1)[1]? = some 1
          exact List.getElem?_set_eq_of_lt 1 (by omega)
        · intro hpe
          show (s.order.set 1 1)[5]? = some 1
          rw [List.getElem?_set_ne (by omega)]
          exact h5 hpe
  | class_ s v hs ih =>
      obtain ⟨hlen, h0, h1, h5⟩ := ih
      rw [class_spec]
      split_ifs with hord
      · exact ⟨hlen, h0, h1, h5⟩
      · refine ⟨?_, ?_, ?_, ?_⟩
        · show (s.order.set 2 1).length = 6
          simp [hlen]
        · intro hel
          show (s.order.set 2 1)[0]? = some 1
          rw [List.getElem?_set_ne (by omega)]
          exact h0 hel
        · intro hid
          show (s.order.set 2 1)[1]? = some 1
          rw [List.getElem?_set_ne (by omega)]
          exact h1 hid
        · intro hpe
          show (s.order.set 2 1)[5]? = some 1
          rw [List.getElem?_set_ne (by omega)]
          exact h5 hpe
  | attr s v hs ih =>
      obtain ⟨hlen, h0, h1, h5⟩ := ih
      rw [attr_spec]
      split_ifs with hord
      · exact ⟨hlen, h0, h1, h5⟩
      · refine ⟨?_, ?_, ?_, ?_⟩
        · show (s.order.set 3 1).length = 6
          simp [hlen]
        · intro hel
          show (s.order.set 3 1)[0]? = some 1
          rw [List.getElem?_set_ne (by omega)]
          exact h0 hel
        · intro hid
          show (s.order.set 3 1)[1]? = some 1
          rw [List.getElem?_set_ne (by omega)]
          exact h1 hid
        · intro hpe
          show (s.order.set 3 1)[5]? = some 1
          rw [List.getElem?_set_ne (by omega)]
          exact h5 hpe
  | pseudoClass s v hs ih =>
      obtain ⟨hlen, h0, h1, h5⟩ := ih
      rw [pseudoClass_spec]
      split_ifs with hord
      · exact ⟨hlen, h0, h1, h5⟩
      · refine ⟨?_, ?_, ?_, ?_⟩
        · show (s.order.set 4 1).length = 6
          simp [hlen]
        · intro hel
          show (s.order.set 4 1)[0]? = some 1
          rw [List.getElem?_set_ne (by omega)]
          exact h0 hel
        · intro hid
          show (s.order.set 4 1)[1]? = some 1
          rw [List.getElem?_set_ne (by omega)]
          exact h1 hid
        · intro hpe
          show (s.order.set 4 1)[5]? = some 1
          rw [List.getElem?_set_ne (by omega)]
          exact h5 hpe
  | pseudoElement s v hs ih =>
      obtain ⟨hlen, h0, h1, h5⟩ := ih
      rw [pseudoElement_spec]
      split_ifs with hord hdup
      · exact ⟨hlen, h0, h1, h5⟩
      all_goals refine ⟨?_, ?_, ?_, ?_⟩
      · show (s.order.set 5 1).length = 6
        simp [hlen]
      · intro hel
        show (s.order.set 5 1)[0]? = some 1
        rw [List.getElem?_set_ne (by omega)]
        exact h0 hel
      · intro hid
        show (s.order.set 5 1)[1]? = some 1
        rw [List.getElem?_set_ne (by omega)]
        exact h1 hid
      · intro _
        show (s.order.set 5 1)[5]? = some 1
        exact List.getElem?_set_eq_of_lt 1 (by omega)
      · show (s.order.set 5 1).length = 6
        simp [hlen]
      · intro hel
        show (s.order.set 5 1)[0]? = some 1
        rw [List.getElem?_set_ne (by omega)]
        exact h0 hel
      · intro hid
        show (s.order.set 5 1)[1]? = some 1
        rw [List.getElem?_set_ne (by omega)]
        exact h1 hid
      · intro _
        show (s.order.set 5 1)[5]? = some 1
        exact List.getElem?_set_eq_of_lt 1 (by omega)
  | combine s r c hs hr ihs ihr =>
      exact ihs

/-- If slot `n` already holds a `1`, appending rank `n` is not blocked. -/
theorem not_orderBlocks_of_slot (s : CssSelector) (n : Nat)
    (h : s.order[n]? = some 1) : ¬ orderBlocks s n := by
  unfold orderBlocks
  have := indexOfOne_le s.order n h
  omega

/-- Rank 5 is never blocked on a six-slot order array: `indexOf(1)` is at
most 5 there, and the check requires it to exceed 5. -/
theorem not_orderBlocks_five (s : CssSelector)
    (hlen : s.order.length = 6) : ¬ orderBlocks s 5 := by
  unfold orderBlocks
  have := indexOfOne_lt_length s.order
  rw [hlen] at this
  omega

theorem element_frame (s : CssSelector) (v : String) :
    ((element s v).2).combinator = s.combinator ∧
    ((element s v).2).supSelector = s.supSelector := by
  rw [element_spec]; split_ifs <;> exact ⟨rfl, rfl⟩

theorem id_frame (s : CssSelector) (v : String) :
    ((id s v).2).combinator = s.combinator ∧
    ((id s v).2).supSelector = s.supSelector := by
  rw [id_spec]; split_ifs <;> exact ⟨rfl, rfl⟩

theorem class_frame (s : CssSelector) (v : String) :
    ((class_ s v).2).combinator = s.combinator ∧
    ((class_ s v).2).supSelector = s.supSelector := by
  rw [class_spec]; split_ifs <;> exact ⟨rfl, rfl⟩

theorem attr_frame (s : CssSelector) (v : String) :
    ((attr s v).2).combinator = s.combinator ∧
    ((attr s v).2).supSelector = s.supSelector := by
  rw [attr_spec]; split_ifs <;> exact ⟨rfl, rfl⟩

theorem pseudoClass_frame (s : CssSelector) (v : String) :
    ((pseudoClass s v).2).combinator = s.combinator ∧
    ((pseudoClass s v).2).supSelector = s.supSelector := by
  rw [pseudoClass_spec]; split_ifs <;> exact ⟨rfl, rfl⟩

theorem pseudoElement_frame (s : CssSelector) (v : String) :
    ((pseudoElement s v).2).combinator = s.combinator ∧
    ((pseudoElement s v).2).supSelector = s.supSelector := by
  rw [pseudoElement_spec]; split_ifs <;> exact ⟨rfl, rfl⟩

/-!
Claim theorems.
-/

/-- C1 counterexample: the claim says a call of rank lower than the highest
rank already appended always raises the order error.  On the chain
`element('a').pseudoClass('x').id('y')` the final `id` call has rank 1,
lower than the already-appended rank 4, yet it raises nothing: `checkOrder`
compares against `this.order.indexOf(1)`, the LOWEST appended rank (here 0,
from `element`), not the highest. -/
theorem c1_counterexample :
    (id ((pseudoClass ((element newSelector "a").2) "x").2) "y").1 = none := by
  decide

/-- C1 amended: on every reachable builder, a fragment call raises
`OrderViolationError` exactly when the LOWEST rank already appended (the
first `1` in `this.order`, as found by `indexOf`) exists and is strictly
greater than the rank of the call; in particular a call of rank not below
every already-appended rank never raises it, and a `pseudoElement` call
(rank 5) never raises it at all. -/
theorem c1_order_error_iff_below_lowest_rank (s : CssSelector)
    (h : Reachable s) (v : String) :
    ((element s v).1 = some JsError.orderViolation ↔ orderBlocks s 0) ∧
    ((id s v).1 = some JsError.orderViolation ↔ orderBlocks s 1) ∧
    ((class_ s v).1 = some JsError.orderViolation ↔ orderBlocks s 2) ∧
    ((attr s v).1 = some JsError.orderViolation ↔ orderBlocks s 3) ∧
    ((pseudoClass s v).1 = some JsError.orderViolation ↔ orderBlocks s 4) ∧
    ((pseudoElement s v).1 = some JsError.orderViolation ↔ orderBlocks s 5) := by
  obtain ⟨hlen, h0, h1, h5⟩ := reachable_inv s h
  refine ⟨?_, ?_, ?_, ?_, ?_, ?_⟩
  · rw [element_spec]
    split_ifs with hdup hord
    · have hnb : ¬ orderBlocks s 0 := not_orderBlocks_of_slot s 0 (h0 hdup)
      simp [hnb]
    · simp [hord]
    · simp [hord]
  · rw [id_spec]
    split_ifs with hdup hord
    · have hnb : ¬ orderBlocks s 1 := not_orderBlocks_of_slot s 1 (h1 hdup)
      simp [hnb]
    · simp [hord]
    · simp [hord]
  · rw [class_spec]
    split_ifs with hord
    · simp [hord]
    · simp [hord]
  · rw [attr_spec]
    split_ifs with hord
    · simp [hord]
    · simp [hord]
  · rw [pseudoClass_spec]
    split_ifs with hord
    · simp [hord]
    · simp [hord]
  · have hnb := not_orderBlocks_five s hlen
    rw [pseudoElement_spec, if_neg hnb]
    split_ifs with hdup
    · simp [hnb]
    · simp [hnb]

/-- C1 witness: after `pseudoClass('x')` on a fresh builder (lowest
appended rank 4), the rank-1 call `id('y')` raises the order error. -/
theorem c1_witness :
    (id ((pseudoClass newSelector "x").2) "y").1
      = some JsError.orderViolation := by
  have h := (c1_order_error_iff_below_lowest_rank
    ((pseudoClass newSelector "x").2)
    (Reachable.pseudoClass newSelector "x" Reachable.init) "y").2.1
  exact h.mpr (by decide)

/-- C2 counterexample: the claim says a second `element` call always
raises the duplicate error for every pair of argument values.  After
`element('')` the stored `elementValue` is still the empty string, so
`assertEmpty` passes and a second `element('x')` call succeeds. -/
theorem c2_counterexample :
    (element ((element newSelector "").2) "x").1 = none := by
  decide

/-- C2 amended: on every reachable builder, `element` raises
`DuplicateFragmentError` (leaving the state unchanged) whenever the stored
`elementValue` is non-empty — which after a first `element(v)` call holds
exactly when `v` was non-empty, since a successful call stores `v`
verbatim; `id` and `pseudoElement` store `'#' + v` and `'::' + v`, which
are never empty, so for them a second call always raises the error. -/
theorem c2_second_call_duplicate (s : CssSelector) (h : Reachable s)
    (v : String) :
    (s.elementValue ≠ "" → element s v = (some JsError.duplicateFragment, s)) ∧
    (s.idValue ≠ "" → id s v = (some JsError.duplicateFragment, s)) ∧
    (s.pseudoElementValue ≠ "" →
      pseudoElement s v = (some JsError.duplicateFragment, s)) ∧
    ((element s v).1 = none → ((element s v).2).elementValue = v) ∧
    ((id s v).1 = none → ((id s v).2).idValue = "#" ++ v) ∧
    ((pseudoElement s v).1 = none →
      ((pseudoElement s v).2).pseudoElementValue = "::" ++ v) := by
  obtain ⟨hlen, h0, h1, h5⟩ := reachable_inv s h
  refine ⟨?_, ?_, ?_, ?_, ?_, ?_⟩
  · intro hel
    rw [element_spec, if_pos hel]
  · intro hid
    rw [id_spec, if_pos hid]
  · intro hpe
    rw [pseudoElement_spec, if_neg (not_orderBlocks_five s hlen), if_pos hpe]
    rw [set_getElem_self s.order 5 1 (h5 hpe)]
  · rw [element_spec]
    split_ifs with hdup hord
    · intro hx; simp at hx
    · intro hx; simp at hx
    · intro _; rfl
  · rw [id_spec]
    split_ifs with hdup hord
    · intro hx; simp at hx
    · intro hx; simp at hx
    · intro _; rfl
  · rw [pseudoElement_spec, if_neg (not_orderBlocks_five s hlen)]
    split_ifs with hdup
    · intro hx; simp at hx
    · intro _
      show s.pseudoElementValue ++ "::" ++ v = "::" ++ v
      rw [not_ne_iff.mp hdup]
      rfl

/-- C2 witness: `element('a')` then `element('b')` raises the duplicate
error and leaves the builder unchanged. -/
theorem c2_witness :
    element ((element newSelector "a").2) "b"
      = (some JsError.duplicateFragment, (element newSelector "a").2) :=
  (c2_second_call_duplicate ((element newSelector "a").2)
    (Reachable.element newSelector "a" Reachable.init) "b").1 (by decide)

/-- C3: the nested combination example of the spec renders exactly the
documented string, three spaces included: every fragment call in the four
chains succeeds, and the final `stringify()` yields
`div#main.container.draggable + table#data ~ tr:nth-of-type(even)   td:nth-of-type(even)`. -/
theorem c3_combined_example :
    (let tdE := cssSelectorBuilder.element "td"
     let td := pseudoClass tdE.2 "nth-of-type(even)"
     let trE := cssSelectorBuilder.element "tr"
     let tr := pseudoClass trE.2 "nth-of-type(even)"
     let trc := cssSelectorBuilder.combine tr.2 " " td.2
     let tableE := cssSelectorBuilder.element "table"
     let table := id tableE.2 "data"
     let tablec := cssSelectorBuilder.combine table.2 "~" trc
     let divE := cssSelectorBuilder.element "div"
     let divI := id divE.2 "main"
     let divC1 := class_ divI.2 "container"
     let divC2 := class_ divC1.2 "draggable"
     let final := cssSelectorBuilder.combine divC2.2 "+" tablec
     tdE.1 = none ∧ td.1 = none ∧ trE.1 = none ∧ tr.1 = none ∧
     tableE.1 = none ∧ table.1 = none ∧ divE.1 = none ∧ divI.1 = none ∧
     divC1.1 = none ∧ divC2.1 = none ∧
     stringify final =
       "div#main.container.draggable + table#data ~ tr:nth-of-type(even)   td:nth-of-type(even)") := by
  decide

/-- C4 counterexample: the duplicate-fragment message in the code reads
`more then one time` (sic), not `more than one time` as the claim states. -/
theorem c4_counterexample :
    errorMessage JsError.duplicateFragment ≠
      "Element, id and pseudo-element should not occur more than one time inside the selector" := by
  decide

/-- C4 amended: the duplicate-fragment error carries exactly the message
`Element, id and pseudo-element should not occur more then one time inside
the selector` (with the code's `then`), and the order-violation error
carries exactly the message the claim states. -/
theorem c4_error_messages (e : JsError) :
    (e = JsError.duplicateFragment → errorMessage e =
      "Element, id and pseudo-element should not occur more then one time inside the selector") ∧
    (e = JsError.orderViolation → errorMessage e =
      "Selector parts should be arranged in the following order: element, id, class, attribute, pseudo-class, pseudo-element") := by
  cases e <;> refine ⟨?_, ?_⟩ <;> intro hx <;> first | rfl | simp at hx

/-- C4 witness: both messages evaluated at their error values. -/
theorem c4_witness :
    errorMessage JsError.duplicateFragment =
      "Element, id and pseudo-element should not occur more then one time inside the selector" :=
  (c4_error_messages JsError.duplicateFragment).1 rfl

/-- C5 counterexample: the claim says `combinator` and `supSelector` are
either both unset (empty) or both set.  `combine` called with an empty
right-hand builder stores the empty string as `supSelector` while setting
`combinator`, so the reachable state `newSelector.combine(newSelector,'+')`
has `combinator` set and `supSelector` unset. -/
theorem c5_counterexample :
    Reachable (combine newSelector newSelector "+") ∧
    ¬ (((combine newSelector newSelector "+").combinator = "" ∧
        (combine newSelector newSelector "+").supSelector = "") ∨
       ((combine newSelector newSelector "+").combinator ≠ "" ∧
        (combine newSelector newSelector "+").supSelector ≠ "")) :=
  ⟨Reachable.combine newSelector newSelector "+" Reachable.init Reachable.init,
   by decide⟩

/-- C5 amended: on every builder reachable when each `combine` call uses a
non-empty combinator string and a right operand whose `stringify()` is
non-empty, `combinator` and `supSelector` are either both empty or both
non-empty. -/
theorem c5_combinator_linked_together (s : CssSelector)
    (h : StrictReachable s) :
    (s.combinator = "" ∧ s.supSelector = "") ∨
    (s.combinator ≠ "" ∧ s.supSelector ≠ "") := by
  induction h with
  | init => exact Or.inl ⟨rfl, rfl⟩
  | element s v hs ih =>
      obtain ⟨hc, hp⟩ := element_frame s v
      rw [hc, hp]; exact ih
  | id s v hs ih =>
      obtain ⟨hc, hp⟩ := id_frame s v
      rw [hc, hp]; exact ih
  | class_ s v hs ih =>
      obtain ⟨hc, hp⟩ := class_frame s v
      rw [hc, hp]; exact ih
  | attr s v hs ih =>
      obtain ⟨hc, hp⟩ := attr_frame s v
      rw [hc, hp]; exact ih
  | pseudoClass s v hs ih =>
      obtain ⟨hc, hp⟩ := pseudoClass_frame s v
      rw [hc, hp]; exact ih
  | pseudoElement s v hs ih =>
      obtain ⟨hc, hp⟩ := pseudoElement_frame s v
      rw [hc, hp]; exact ih
  | combine s r c hs hr hcne hrne ihs ihr =>
      exact Or.inr ⟨hcne, hrne⟩

/-- C5 witness: combining `element('a')` onto a fresh builder with `'+'`
gives a state with both fields non-empty. -/
theorem c5_witness :
    ((combine newSelector ((element newSelector "a").2) "+").combinator = "" ∧
     (combine newSelector ((element newSelector "a").2) "+").supSelector = "") ∨
    ((combine newSelector ((element newSelector "a").2) "+").combinator ≠ "" ∧
     (combine newSelector ((element newSelector "a").2) "+").supSelector ≠ "") :=
  c5_combinator_linked_together
    (combine newSelector ((element newSelector "a").2) "+")
    (StrictReachable.combine newSelector ((element newSelector "a").2) "+"
      StrictReachable.init
      (StrictReachable.element newSelector "a" StrictReachable.init)
      (by decide) (by decide))

/-- C6: on every reachable builder state, `stringify()` returns a string
without throwing (its state-passing translation `stringifyCall` is total
and has no error component, the body being pure string concatenation),
leaves the builder state unchanged, and a second call on the unmodified
builder returns an identical string. -/
theorem c6_stringify_pure_idempotent (s : CssSelector) (_h : Reachable s) :
    (stringifyCall s).2 = s ∧
    (stringifyCall ((stringifyCall s).2)).1 = (stringifyCall s).1 :=
  ⟨rfl, rfl⟩

/-- C6 witness: both conjuncts at the fresh builder. -/
theorem c6_witness :
    (stringifyCall newSelector).2 = newSelector ∧
    (stringifyCall ((stringifyCall newSelector).2)).1
      = (stringifyCall newSelector).1 :=
  c6_stringify_pure_idempotent newSelector Reachable.init

/-- C7: each facade entry point equals the corresponding instance method
invoked on a fresh builder, and the facade `combine(s1, op, s2)` is exactly
`s1.combine(s2, op)` — the facade takes the combinator between the
operands, the instance method takes the other operand first. -/
theorem c7_facade_equivalence :
    (∀ v, cssSelectorBuilder.element v = element newSelector v) ∧
    (∀ v, cssSelectorBuilder.id v = id newSelector v) ∧
    (∀ v, cssSelectorBuilder.class_ v = class_ newSelector v) ∧
    (∀ v, cssSelectorBuilder.attr v = attr newSelector v) ∧
    (∀ v, cssSelectorBuilder.pseudoClass v = pseudoClass newSelector v) ∧
    (∀ v, cssSelectorBuilder.pseudoElement v = pseudoElement newSelector v) ∧
    (∀ s1 op s2, cssSelectorBuilder.combine s1 op s2 = combine s1 s2 op) :=
  ⟨fun _ => rfl, fun _ => rfl, fun _ => rfl, fun _ => rfl, fun _ => rfl,
   fun _ => rfl, fun _ _ _ => rfl⟩

/-- C8: `id('main').class('container').class('editable')` renders exactly
`#main.container.editable`; `element('a').attr('href$=".png"')
.pseudoClass('focus')` renders exactly `a[href$=".png"]:focus`; no call in
either chain throws; and in general a successful `class`/`attr`/
`pseudoClass` call appends its rendered fragment to the end of the stored
sequence, so repeated fragments appear concatenated in call order. -/
theorem c8_examples_and_repeat_fragments :
    (cssSelectorBuilder.id "main").1 = none ∧
    (class_ (cssSelectorBuilder.id "main").2 "container").1 = none ∧
    (class_ (class_ (cssSelectorBuilder.id "main").2 "container").2
      "editable").1 = none ∧
    stringify (class_ (class_ (cssSelectorBuilder.id "main").2 "container").2
      "editable").2 = "#main.container.editable" ∧
    (cssSelectorBuilder.element "a").1 = none ∧
    (attr (cssSelectorBuilder.element "a").2 "href$=\".png\"").1 = none ∧
    (pseudoClass (attr (cssSelectorBuilder.element "a").2 "href$=\".png\"").2
      "focus").1 = none ∧
    stringify (pseudoClass
      (attr (cssSelectorBuilder.element "a").2 "href$=\".png\"").2
      "focus").2 = "a[href$=\".png\"]:focus" ∧
    (∀ s v, (class_ s v).1 = none →
      ((class_ s v).2).classes = s.classes ++ "." ++ v) ∧
    (∀ s v, (attr s v).1 = none →
      ((attr s v).2).attrs = s.attrs ++ "[" ++ v ++ "]") ∧
    (∀ s v, (pseudoClass s v).1 = none →
      ((pseudoClass s v).2).pseudoClasses = s.pseudoClasses ++ ":" ++ v) := by
  refine ⟨by decide, by decide, by decide, by decide, by decide, by decide,
    by decide, by decide, ?_, ?_, ?_⟩
  · intro s v
    rw [class_spec]
    split_ifs with hord
    · intro hx; simp at hx
    · intro _; rfl
  · intro s v
    rw [attr_spec]
    split_ifs with hord
    · intro hx; simp at hx
    · intro _; rfl
  · intro s v
    rw [pseudoClass_spec]
    split_ifs with hord
    · intro hx; simp at hx
    · intro _; rfl

/-- C8 witness: the general append conjunct at a concrete repeated call:
a second `class` call appends after the first. -/
theorem c8_witness :
    ((class_ ((class_ newSelector "a").2) "b").2).classes
      = ((class_ newSelector "a").2).classes ++ "." ++ "b" :=
  (c8_examples_and_repeat_fragments.2.2.2.2.2.2.2.2.1
    ((class_ newSelector "a").2) "b") (by decide)

/-- C9: `combine(selector, combinator)` stores `selector.stringify()`
computed at the moment of the call — the result depends on the right
operand only through that string, as the factoring through `combineStr`
shows, so later mutation of the right operand cannot change the left one —
sets only `combinator` and `supSelector` (all six fragment fields and the
`order` array of the left operand are unchanged, and the right operand is
only read), and a second `combine` on the same builder silently replaces
the previously stored combinator and right-hand text. -/
theorem c9_combine_stores_text_and_frames (l r r2 : CssSelector)
    (op op2 : String) :
    combine l r op = combineStr l (stringify r) op ∧
    (combine l r op).combinator = op ∧
    (combine l r op).supSelector = stringify r ∧
    (combine l r op).elementValue = l.elementValue ∧
    (combine l r op).idValue = l.idValue ∧
    (combine l r op).classes = l.classes ∧
    (combine l r op).attrs = l.attrs ∧
    (combine l r op).pseudoClasses = l.pseudoClasses ∧
    (combine l r op).pseudoElementValue = l.pseudoElementValue ∧
    (combine l r op).order = l.order ∧
    combine (combine l r op) r2 op2 = combine l r2 op2 :=
  ⟨rfl, rfl, rfl, rfl, rfl, rfl, rfl, rfl, rfl, rfl, rfl⟩

/-- C10: fragment methods are atomic on error: on every reachable builder,
whenever a fragment call throws, the resulting state equals the state
before the call (so, the builder being a pure function of its state, every
later call behaves as if the failing call had never been made).  The one
method that mutates before its duplicate check, `pseudoElement`, only
rewrites an order slot that is already 1 on any reachable state whose
`pseudoElementValue` is non-empty. -/
theorem c10_fragment_atomic_on_error (s : CssSelector) (h : Reachable s)
    (v : String) :
    ((element s v).1 ≠ none → (element s v).2 = s) ∧
    ((id s v).1 ≠ none → (id s v).2 = s) ∧
    ((class_ s v).1 ≠ none → (class_ s v).2 = s) ∧
    ((attr s v).1 ≠ none → (attr s v).2 = s) ∧
    ((pseudoClass s v).1 ≠ none → (pseudoClass s v).2 = s) ∧
    ((pseudoElement s v).1 ≠ none → (pseudoElement s v).2 = s) := by
  obtain ⟨hlen, h0, h1, h5⟩ := reachable_inv s h
  refine ⟨?_, ?_, ?_, ?_, ?_, ?_⟩
  · rw [element_spec]
    split_ifs <;> intro hx
    · rfl
    · rfl
    · exact absurd rfl hx
  · rw [id_spec]
    split_ifs <;> intro hx
    · rfl
    · rfl
    · exact absurd rfl hx
  · rw [class_spec]
    split_ifs <;> intro hx
    · rfl
    · exact absurd rfl hx
  · rw [attr_spec]
    split_ifs <;> intro hx
    · rfl
    · exact absurd rfl hx
  · rw [pseudoClass_spec]
    split_ifs <;> intro hx
    · rfl
    · exact absurd rfl hx
  · rw [pseudoElement_spec, if_neg (not_orderBlocks_five s hlen)]
    split_ifs with hdup <;> intro hx
    · show ({ s with order := s.order.set 5 1 } : CssSelector) = s
      rw [set_getElem_self s.order 5 1 (h5 hdup)]
    · exact absurd rfl hx

/-- C10 witness: `id('x')` then `element('y')` throws, and the builder
state after the failed call equals the state before it. -/
theorem c10_witness :
    (element ((id newSelector "x").2) "y").1 ≠ none ∧
    (element ((id newSelector "x").2) "y").2 = (id newSelector "x").2 :=
  ⟨by decide,
   (c10_fragment_atomic_on_error ((id newSelector "x").2)
     (Reachable.id newSelector "x" Reachable.init) "y").1 (by decide)⟩

end CssSelector

end CoreJs
